import Mathlib

/-!
Verification of the strolle renderer's specification against a shallow
embedding of its source. Floating-point scalars (`f32`) are modelled as
rationals; the arithmetic in the embedded fragments uses only addition,
subtraction, multiplication, division, comparison, `abs` and `max`, so the
rational model is faithful to the source's formulas.
-/

namespace Strolle

/-- A 3-component vector (glam `Vec3`), with rational scalars. -/
structure Vec3 where
  x : ℚ
  y : ℚ
  z : ℚ
deriving DecidableEq, Repr

/-- glam `Vec3::dot`. -/
def Vec3.dot (a b : Vec3) : ℚ :=
  a.x * b.x + a.y * b.y + a.z * b.z

/-- A 4-component vector (glam `Vec4`), with rational scalars. -/
structure Vec4 where
  x : ℚ
  y : ℚ
  z : ℚ
  w : ℚ
deriving DecidableEq, Repr

/-- glam `Vec3::extend`. -/
def Vec3.extend (v : Vec3) (w : ℚ) : Vec4 :=
  ⟨v.x, v.y, v.z, w⟩

/-- Scalar multiplication `v * s` of a `Vec3` by an `f32`. -/
def Vec3.mulScalar (v : Vec3) (s : ℚ) : Vec3 :=
  ⟨v.x * s, v.y * s, v.z * s⟩

/-! ## `src/strolle-gpu/src/surface.rs` -/

/-- `Surface`: per-pixel shading snapshot (world-space normal, linear depth,
roughness). -/
structure Surface where
  normal : Vec3
  depth : ℚ
  roughness : ℚ
deriving DecidableEq, Repr

/-- `Surface::is_sky`: `self.depth == 0.0`. -/
def Surface.is_sky (s : Surface) : Prop :=
  s.depth = 0

instance (s : Surface) : Decidable s.is_sky :=
  inferInstanceAs (Decidable (s.depth = 0))

/-- `Surface::evaluate_similarity_to`, translated clause by clause from
`src/strolle-gpu/src/surface.rs` (the source's `0.1` is the rational
`1/10`). -/
def Surface.evaluate_similarity_to (self other : Surface) : ℚ :=
  if self.is_sky ∨ other.is_sky then
    0
  else
    let normal_score :=
      let dot := max (self.normal.dot other.normal) 0
      if dot ≤ 1/2 then
        0
      else
        2 * dot
    let depth_score :=
      let t := |self.depth - other.depth|
      if self.depth < 1 then
        max (1 - t) 0
      else if t ≥ 1/10 * other.depth then
        0
      else
        1 - t / (1/10 * other.depth)
    normal_score * depth_score

/-- A concrete non-sky surface with a unit normal: normal `(0,0,1)`,
depth `5`, roughness `0`. -/
def surfaceA : Surface :=
  ⟨⟨0, 0, 1⟩, 5, 0⟩

/-- C1: the spec says `evaluate_similarity_to(A, A) == 1.0` for every non-sky
surface `A`, and the function's own doc comment says the score lies in
`⟨0.0, 1.0⟩`; but the code computes a normal score of `2.0 * dot` (not
`2.0 * (dot - 0.5)`), so the self-similarity of a surface with a unit normal
is `2.0`, not `1.0`. This theorem evaluates the code at the failing input. -/
theorem C1_self_similarity_evaluates_to_two :
    Surface.evaluate_similarity_to surfaceA surfaceA = 2 := by
  norm_num [Surface.evaluate_similarity_to, Surface.is_sky, surfaceA,
    Vec3.dot, max_def, abs_of_nonneg, abs_of_nonpos]

/-- The similarity score as claim C2 states it (spec-side definition, for
comparison with the source's `Surface.evaluate_similarity_to`): normal score
`0` at or below the `0.5` dot threshold, else `2 * dot`; depth score exactly
`1` in the near-zero-depth branch (the source's `self.depth < 1.0` case),
else linear decay to `0` as the depth error reaches `10%` of the other
surface's depth. -/
def similaritySpecC2 (self other : Surface) : ℚ :=
  if self.is_sky ∨ other.is_sky then
    0
  else
    let normal_score :=
      let dot := max (self.normal.dot other.normal) 0
      if dot ≤ 1/2 then 0 else 2 * dot
    let depth_score :=
      let t := |self.depth - other.depth|
      if self.depth < 1 then
        1
      else if t ≥ 1/10 * other.depth then
        0
      else
        1 - t / (1/10 * other.depth)
    normal_score * depth_score

/-- Two concrete non-sky surfaces with equal unit normals and depths `1/2`
and `13/25`. -/
def surfaceB : Surface :=
  ⟨⟨0, 0, 1⟩, 1/2, 0⟩

/-- A surface close in depth to `surfaceB`. -/
def surfaceB' : Surface :=
  ⟨⟨0, 0, 1⟩, 13/25, 0⟩

/-- C2 counterexample: for depths `1/2` and `13/25` (equal unit normals) the
code returns `2 * max (1 - 1/50) 0 = 49/25`, which differs both from the
claim's "depth score is 1 for near-zero depth" reading (score `2`) and from
its pure relative-decay reading (score `2 * (1 - (1/50) / (13/250)) = 16/13`):
in the sub-1 depth branch the code uses an absolute depth difference, not a
constant `1` and not the relative formula. -/
theorem C2_counterexample :
    Surface.evaluate_similarity_to surfaceB surfaceB' ≠
      similaritySpecC2 surfaceB surfaceB' ∧
    Surface.evaluate_similarity_to surfaceB surfaceB' ≠
      2 * (1 - (1/50) / (1/10 * (13/25))) := by
  constructor <;>
    norm_num [Surface.evaluate_similarity_to, similaritySpecC2,
      Surface.is_sky, surfaceB, surfaceB', Vec3.dot, max_def, abs_of_nonneg, abs_of_nonpos]

/-- The normal factor of the source's similarity score: `0` at or below the
`0.5` dot-product threshold, `2 * dot` above it. -/
def normalScore (self other : Surface) : ℚ :=
  let dot := max (self.normal.dot other.normal) 0
  if dot ≤ 1/2 then 0 else 2 * dot

/-- The depth factor of the source's similarity score: for `depth < 1` the
absolute difference `max (1 - t) 0`, otherwise linear decay to `0` as `t`
reaches `10%` of the other surface's depth. -/
def depthScore (self other : Surface) : ℚ :=
  let t := |self.depth - other.depth|
  if self.depth < 1 then
    max (1 - t) 0
  else if t ≥ 1/10 * other.depth then
    0
  else
    1 - t / (1/10 * other.depth)

/-- C2 (amended): for non-sky surfaces the similarity score is the product of
the normal factor (`0` at or below the `0.5` dot threshold, else `2 * dot`,
which spans `(1, 2]` for unit normals) and the depth factor, which for
first-surface depth below `1` is `max (1 - |Δdepth|) 0` (equal to `1` only
when the depths coincide) and otherwise decays linearly to `0` as `|Δdepth|`
reaches `10%` of the other surface's depth; a zero factor zeroes the score. -/
theorem C2_similarity_factorization (s o : Surface)
    (hs : s.depth ≠ 0) (ho : o.depth ≠ 0) :
    Surface.evaluate_similarity_to s o = normalScore s o * depthScore s o ∧
    (Surface.evaluate_similarity_to s o = 0 ↔
      normalScore s o = 0 ∨ depthScore s o = 0) := by
  have hmain : Surface.evaluate_similarity_to s o =
      normalScore s o * depthScore s o := by
    simp [Surface.evaluate_similarity_to, Surface.is_sky, hs, ho,
      normalScore, depthScore]
  exact ⟨hmain, by rw [hmain]; exact mul_eq_zero⟩

/-- Witness for `C2_similarity_factorization`, at the concrete non-sky pair
`surfaceB`, `surfaceB'`. -/
theorem C2_similarity_factorization_witness :
    Surface.evaluate_similarity_to surfaceB surfaceB' =
      normalScore surfaceB surfaceB' * depthScore surfaceB surfaceB' ∧
    (Surface.evaluate_similarity_to surfaceB surfaceB' = 0 ↔
      normalScore surfaceB surfaceB' = 0 ∨
      depthScore surfaceB surfaceB' = 0) :=
  C2_similarity_factorization surfaceB surfaceB' (by norm_num [surfaceB])
    (by norm_num [surfaceB'])

/-- C6: whenever either surface is sky (`depth == 0`), the similarity score
is exactly `0`: the function returns `0.0` in its first branch. -/
theorem C6_sky_similarity_zero (s o : Surface)
    (h : s.depth = 0 ∨ o.depth = 0) :
    Surface.evaluate_similarity_to s o = 0 := by
  rcases h with h | h <;>
    simp [Surface.evaluate_similarity_to, Surface.is_sky, h]

/-- Witness for `C6_sky_similarity_zero`: a sky surface (depth `0`) against
the non-sky `surfaceA`. -/
theorem C6_sky_similarity_zero_witness :
    Surface.evaluate_similarity_to ⟨⟨0, 0, 1⟩, 0, 0⟩ surfaceA = 0 :=
  C6_sky_similarity_zero ⟨⟨0, 0, 1⟩, 0, 0⟩ surfaceA (Or.inl rfl)

/-! ## Pass bindings (`src/strolle/src/camera_controller/passes/*.rs`)

Each pass's `new` function binds a fixed list of engine and per-camera
buffers, each either readable, writable, sampled or as a texture atlas. The
lists below transcribe those `bind` calls in order. -/

/-- The GPU buffers named in the pass constructors. -/
inductive BufferId
  | triangles
  | bvh
  | materials
  | lights
  | imagesAtlas
  | world
  | camera
  | reprojectionMap
  | surfaceMapCurr
  | directGbufferD0
  | directGbufferD1
  | directCandidates
  | directSamples
  | directPrevReservoirs
  | directCurrReservoirs
  | directNextReservoirs
  | atmosphereTransmittanceLut
  | atmosphereSkyLut
  | refRays
  | refHits
deriving DecidableEq, Repr

/-- How a buffer is bound in a pass (`bind_readable`, `bind_writable`,
`bind_sampled`, `bind_atlas`). -/
inductive Access
  | readable
  | writable
  | sampled
  | atlas
deriving DecidableEq, Repr

/-- Bindings of `DirectTemporalResamplingPass::new`. -/
def temporalResamplingBindings : List (BufferId × Access) :=
  [(.triangles, .readable), (.bvh, .readable), (.materials, .readable),
   (.lights, .readable), (.imagesAtlas, .atlas),
   (.camera, .readable), (.reprojectionMap, .readable),
   (.directGbufferD0, .readable), (.directGbufferD1, .readable),
   (.directCandidates, .readable), (.directPrevReservoirs, .readable),
   (.directCurrReservoirs, .writable)]

/-- Bindings of `DirectSpatialResamplingPass::new`. -/
def spatialResamplingBindings : List (BufferId × Access) :=
  [(.triangles, .readable), (.bvh, .readable), (.materials, .readable),
   (.lights, .readable), (.imagesAtlas, .atlas),
   (.camera, .readable), (.surfaceMapCurr, .readable),
   (.directGbufferD0, .readable), (.directGbufferD1, .readable),
   (.directCurrReservoirs, .readable), (.directNextReservoirs, .writable)]

/-- Bindings of `DirectResolvingPass::new`. -/
def resolvingBindings : List (BufferId × Access) :=
  [(.lights, .readable), (.world, .readable),
   (.camera, .readable), (.atmosphereTransmittanceLut, .sampled),
   (.atmosphereSkyLut, .sampled),
   (.directGbufferD0, .readable), (.directGbufferD1, .readable),
   (.directNextReservoirs, .readable), (.directPrevReservoirs, .writable),
   (.directSamples, .writable)]

/-- Bindings of `RefTracingPass::new`. -/
def refTracingBindings : List (BufferId × Access) :=
  [(.triangles, .readable), (.bvh, .readable), (.materials, .readable),
   (.imagesAtlas, .atlas),
   (.camera, .readable), (.refRays, .readable), (.refHits, .writable)]

/-- A pass binds `b` readable when `b` appears with read-only access
(readable, sampled, or atlas). -/
def readsBuffer (bs : List (BufferId × Access)) (b : BufferId) : Prop :=
  (b, Access.readable) ∈ bs ∨ (b, Access.sampled) ∈ bs ∨
    (b, Access.atlas) ∈ bs

instance (bs : List (BufferId × Access)) (b : BufferId) :
    Decidable (readsBuffer bs b) :=
  inferInstanceAs (Decidable (_ ∨ _ ∨ _))

/-- A pass binds `b` writable when `b` appears with writable access. -/
def writesBuffer (bs : List (BufferId × Access)) (b : BufferId) : Prop :=
  (b, Access.writable) ∈ bs

instance (bs : List (BufferId × Access)) (b : BufferId) :
    Decidable (writesBuffer bs b) :=
  inferInstanceAs (Decidable (_ ∈ bs))

/-- The three reservoir buffers of the direct-lighting pipeline. -/
def reservoirBuffers : List BufferId :=
  [.directPrevReservoirs, .directCurrReservoirs, .directNextReservoirs]

/-- C4: in each of the three resampling/resolving dispatches the
readable-bound buffers are disjoint from the writable-bound ones; the
temporal pass reads the previous reservoirs and writes the current ones, the
spatial pass reads the current reservoirs and writes the next ones, and the
resolving pass reads the next reservoirs and writes the previous ones; no
pass reads and writes the same reservoir buffer in the same dispatch. -/
theorem C4_reservoir_rotation_no_read_write_overlap :
    (∀ b : BufferId,
      ¬ (readsBuffer temporalResamplingBindings b ∧
          writesBuffer temporalResamplingBindings b) ∧
      ¬ (readsBuffer spatialResamplingBindings b ∧
          writesBuffer spatialResamplingBindings b) ∧
      ¬ (readsBuffer resolvingBindings b ∧
          writesBuffer resolvingBindings b)) ∧
    readsBuffer temporalResamplingBindings .directPrevReservoirs ∧
    writesBuffer temporalResamplingBindings .directCurrReservoirs ∧
    readsBuffer spatialResamplingBindings .directCurrReservoirs ∧
    writesBuffer spatialResamplingBindings .directNextReservoirs ∧
    readsBuffer resolvingBindings .directNextReservoirs ∧
    writesBuffer resolvingBindings .directPrevReservoirs := by
  refine ⟨fun b => ?_, ?_, ?_, ?_, ?_, ?_, ?_⟩ <;> first
    | decide
    | (cases b <;> decide)

/-! ## Dispatch sizes (`run` methods of the direct-lighting passes)

Each pass dispatches `compute(threads(8, 8))` workgroups over the viewport;
the workgroup-count arithmetic below is taken verbatim from the `run`
methods (`UVec2` division is per-component integer division). -/

/-- `DirectTemporalResamplingPass::run`: `viewport.size / 8`. -/
def temporalDispatchSize (viewport : ℕ × ℕ) : ℕ × ℕ :=
  (viewport.1 / 8, viewport.2 / 8)

/-- `DirectSpatialResamplingPass::run`: `(viewport.size + 7) / 8`. -/
def spatialDispatchSize (viewport : ℕ × ℕ) : ℕ × ℕ :=
  ((viewport.1 + 7) / 8, (viewport.2 + 7) / 8)

/-- `DirectResolvingPass::run`: `viewport.size / 8`. -/
def resolvingDispatchSize (viewport : ℕ × ℕ) : ℕ × ℕ :=
  (viewport.1 / 8, viewport.2 / 8)

/-- A dispatch of `g` workgroups of 8×8 threads runs exactly one thread with
global id `p` iff both coordinates of `p` lie under `8 * g`. -/
def dispatchCovers (g : ℕ × ℕ) (p : ℕ × ℕ) : Prop :=
  p.1 < 8 * g.1 ∧ p.2 < 8 * g.2

instance (g p : ℕ × ℕ) : Decidable (dispatchCovers g p) :=
  inferInstanceAs (Decidable (_ ∧ _))

/-- C5 counterexample: with a 9×9 viewport the temporal and resolving passes
dispatch `9 / 8 = 1` workgroup per axis, so the in-viewport pixel `(8, 8)`
is never reached by those passes (the spatial pass, which rounds up, does
reach it). -/
theorem C5_counterexample :
    (8 < 9 ∧ 8 < 9) ∧
    ¬ dispatchCovers (temporalDispatchSize (9, 9)) (8, 8) ∧
    ¬ dispatchCovers (resolvingDispatchSize (9, 9)) (8, 8) ∧
    dispatchCovers (spatialDispatchSize (9, 9)) (8, 8) := by
  decide

/-- C5 (amended): the spatial resampling pass, which rounds the workgroup
count up (`(size + 7) / 8`), dispatches enough 8×8 workgroups to reach every
viewport pixel; the temporal resampling and resolving passes, which round
down (`size / 8`), reach every viewport pixel only when both viewport
dimensions are multiples of 8 — otherwise the pixels of the partial edge
tiles are not computed by them. -/
theorem C5_dispatch_coverage (v p : ℕ × ℕ)
    (hx : p.1 < v.1) (hy : p.2 < v.2) :
    dispatchCovers (spatialDispatchSize v) p ∧
    (8 ∣ v.1 → 8 ∣ v.2 →
      dispatchCovers (temporalDispatchSize v) p ∧
      dispatchCovers (resolvingDispatchSize v) p) := by
  simp only [dispatchCovers, spatialDispatchSize, temporalDispatchSize,
    resolvingDispatchSize]
  refine ⟨⟨?_, ?_⟩, fun h1 h2 => ⟨⟨?_, ?_⟩, ?_, ?_⟩⟩ <;> omega

/-- Witness for `C5_dispatch_coverage`: viewport `16 × 8`, pixel `(15, 7)`. -/
theorem C5_dispatch_coverage_witness :
    (15 < 16 ∧ 7 < 8) ∧
    (dispatchCovers (spatialDispatchSize (16, 8)) (15, 7) ∧
      (8 ∣ 16 → 8 ∣ 8 →
        dispatchCovers (temporalDispatchSize (16, 8)) (15, 7) ∧
        dispatchCovers (resolvingDispatchSize (16, 8)) (15, 7))) :=
  ⟨⟨by decide, by decide⟩,
    C5_dispatch_coverage (16, 8) (15, 7) (by decide) (by decide)⟩

/-! ## Image extraction (`src/bevy-strolle/src/stages/extract.rs`) -/

/-- The wgpu texture-usage flags an image carries (`TextureUsages` bitset,
modelled as one flag per field; only `COPY_SRC` is consulted by the
extraction code). -/
structure TextureUsages where
  copySrc : Bool
  copyDst : Bool
  textureBinding : Bool
deriving DecidableEq, Repr

/-- The part of an image's texture descriptor the extraction code reads. -/
structure TextureDescriptor where
  usage : TextureUsages
deriving DecidableEq, Repr

/-- A host image: its texture descriptor plus its raw byte data. -/
structure Image where
  textureDescriptor : TextureDescriptor
  data : List ℕ
deriving DecidableEq, Repr

/-- `ExtractedImageData` from the extraction stage: either a dynamic texture
reference or a raw data copy. -/
inductive ExtractedImageData
  | texture (isDynamic : Bool)
  | raw (data : List ℕ)
deriving DecidableEq, Repr

/-- The per-image body of `images` in `extract.rs`, which decides how an
image's data is extracted: for an image marked dynamic it asserts the
`COPY_SRC` usage (the `assert!` panic is modelled as `Except.error`) and
yields a dynamic texture reference; otherwise it clones the raw data. -/
def extractImageData (isDynamic : Bool) (img : Image) :
    Except String ExtractedImageData :=
  if isDynamic then
    if img.textureDescriptor.usage.copySrc then
      .ok (.texture true)
    else
      .error "Image was marked as dynamic but it is missing the COPY_SRC usage"
  else
    .ok (.raw img.data)

/-- C7: for an image marked dynamic, extraction fails with the fatal
assertion when the usage flags lack `COPY_SRC`, and otherwise yields a
dynamic texture reference (never a raw data copy). -/
theorem C7_dynamic_image_extraction (img : Image) :
    (img.textureDescriptor.usage.copySrc = false →
      extractImageData true img =
        .error
          "Image was marked as dynamic but it is missing the COPY_SRC usage") ∧
    (img.textureDescriptor.usage.copySrc = true →
      extractImageData true img = .ok (.texture true)) := by
  constructor <;> (intro h; simp [extractImageData, h])

/-- Witness for `C7_dynamic_image_extraction`: one image without `COPY_SRC`
(extraction errors) and one with it (extraction yields a dynamic texture). -/
theorem C7_dynamic_image_extraction_witness :
    extractImageData true ⟨⟨⟨false, false, true⟩⟩, [1, 2]⟩ =
      .error
        "Image was marked as dynamic but it is missing the COPY_SRC usage" ∧
    extractImageData true ⟨⟨⟨true, false, true⟩⟩, [1, 2]⟩ =
      .ok (.texture true) :=
  ⟨(C7_dynamic_image_extraction ⟨⟨⟨false, false, true⟩⟩, [1, 2]⟩).1 rfl,
   (C7_dynamic_image_extraction ⟨⟨⟨true, false, true⟩⟩, [1, 2]⟩).2 rfl⟩

/-! ## Material conversion (`src/bevy-strolle/src/material.rs`) -/

/-- Bevy's `AlphaMode` (the `opaq` constructor stands for `Opaque`). -/
inductive AlphaMode
  | opaq
  | mask (m : ℚ)
  | blend
  | premultiplied
  | addBlend
  | multiplyBlend
deriving DecidableEq

/-- strolle's `AlphaMode` (the `opaq` constructor stands for `Opaque`):
only opaque and blend exist on the engine side. -/
inductive StAlphaMode
  | opaq
  | blend
deriving DecidableEq, Repr

/-- The fields of Bevy's `StandardMaterial` that `into_material` reads
(`base_color` is the `Vec4` produced by `color_to_vec4`; texture handles are
modelled as numeric ids). -/
structure StandardMaterial where
  base_color : Vec4
  base_color_texture : Option ℕ
  emissive : Vec4
  emissive_texture : Option ℕ
  perceptual_roughness : ℚ
  metallic : ℚ
  reflectance : ℚ
  normal_map_texture : Option ℕ
  alpha_mode : AlphaMode

/-- strolle's `st::Material` as populated by `into_material` (`ior` keeps its
default `1.0`, which only `StrolleMaterial` overrides). -/
structure StMaterial where
  base_color : Vec4
  base_color_texture : Option ℕ
  emissive : Vec4
  emissive_texture : Option ℕ
  perceptual_roughness : ℚ
  metallic : ℚ
  reflectance : ℚ
  normal_map_texture : Option ℕ
  alpha_mode : StAlphaMode
  ior : ℚ

/-- `MaterialLike::into_material` for `StandardMaterial`, translated from
`src/bevy-strolle/src/material.rs`. -/
def into_material (m : StandardMaterial) : StMaterial :=
  let base_color :=
    let color := m.base_color
    match m.alpha_mode with
    | .opaq => Vec4.mk color.x color.y color.z 1
    | .mask mask =>
        if color.w ≥ mask then
          Vec4.mk color.x color.y color.z 1
        else
          Vec4.mk color.x color.y color.z 0
    | _ => color
  let alpha_mode :=
    match m.alpha_mode with
    | .opaq => StAlphaMode.opaq
    | _ => StAlphaMode.blend
  { base_color := base_color
    base_color_texture := m.base_color_texture
    emissive := m.emissive
    emissive_texture := m.emissive_texture
    perceptual_roughness := m.perceptual_roughness
    metallic := m.metallic
    reflectance := m.reflectance
    normal_map_texture := m.normal_map_texture
    alpha_mode := alpha_mode
    ior := 1 }

/-- C10: converting a `StandardMaterial` with `AlphaMode::Mask(mm)` binarizes
the base color's alpha to `1` when the original alpha is at least `mm` and to
`0` otherwise, and maps the alpha mode to `Blend`; converting one with
`AlphaMode::Opaque` forces the alpha to `1` and keeps the mode opaque. The
RGB channels are untouched in both cases. -/
theorem C10_alpha_mode_conversion (m : StandardMaterial) (mm : ℚ) :
    (m.alpha_mode = .mask mm →
      (into_material m).base_color =
        Vec4.mk m.base_color.x m.base_color.y m.base_color.z
          (if m.base_color.w ≥ mm then 1 else 0) ∧
      (into_material m).alpha_mode = .blend) ∧
    (m.alpha_mode = .opaq →
      (into_material m).base_color =
        Vec4.mk m.base_color.x m.base_color.y m.base_color.z 1 ∧
      (into_material m).alpha_mode = .opaq) := by
  constructor
  · intro h
    refine ⟨?_, by simp [into_material, h]⟩
    simp only [into_material, h]
    split <;> rename_i hw <;> simp [hw]
  · intro h
    exact ⟨by simp [into_material, h], by simp [into_material, h]⟩

/-- Witness for `C10_alpha_mode_conversion`: a material whose alpha `3/10`
falls below the mask cutoff `1/2` gets alpha `0` and mode `Blend`. -/
theorem C10_alpha_mode_conversion_witness :
    (StandardMaterial.mk ⟨1, 0, 0, 3/10⟩ none ⟨0, 0, 0, 0⟩ none 0 0 0 none
        (.mask (1/2))).alpha_mode = .mask (1/2) ∧
    (into_material
        (StandardMaterial.mk ⟨1, 0, 0, 3/10⟩ none ⟨0, 0, 0, 0⟩ none 0 0 0 none
          (.mask (1/2)))).base_color =
      Vec4.mk 1 0 0 (if (3/10 : ℚ) ≥ 1/2 then 1 else 0) ∧
    (into_material
        (StandardMaterial.mk ⟨1, 0, 0, 3/10⟩ none ⟨0, 0, 0, 0⟩ none 0 0 0 none
          (.mask (1/2)))).alpha_mode = .blend := by
  refine ⟨rfl, ?_⟩
  exact (C10_alpha_mode_conversion
    (StandardMaterial.mk ⟨1, 0, 0, 3/10⟩ none ⟨0, 0, 0, 0⟩ none 0 0 0 none
      (.mask (1/2))) (1/2)).1 rfl

/-! ## The resolving shader (`src/strolle-shaders/src/di_resolving.rs`)

The shader's entry point is embedded as a state transformer per thread.
Helper types that live outside the given sources (`Camera::contains`,
`Camera::screen_to_idx`, `Hit::new`, `GBufferEntry::unpack`,
`Light::radiance`, `Atmosphere::sample`) are modelled from the spec, as
noted on each definition; the shader body itself is translated statement by
statement. -/

/-- Modelled from the spec: the camera's viewport rectangle (position and
size in pixels), as supplied to each pass. -/
structure Camera where
  viewportPos : ℕ × ℕ
  viewportSize : ℕ × ℕ

/-- Modelled from the spec: `Camera::contains` — whether a screen position
lies inside the camera's viewport rectangle. -/
def Camera.contains (c : Camera) (p : ℕ × ℕ) : Prop :=
  c.viewportPos.1 ≤ p.1 ∧ p.1 < c.viewportPos.1 + c.viewportSize.1 ∧
    c.viewportPos.2 ≤ p.2 ∧ p.2 < c.viewportPos.2 + c.viewportSize.2

instance (c : Camera) (p : ℕ × ℕ) : Decidable (c.contains p) :=
  inferInstanceAs (Decidable (_ ∧ _ ∧ _ ∧ _))

/-- Modelled from the spec: `Camera::screen_to_idx` — the row-major index of
a screen position inside the viewport, used to address the reservoir
buffers. -/
def Camera.screen_to_idx (c : Camera) (p : ℕ × ℕ) : ℕ :=
  (p.2 - c.viewportPos.2) * c.viewportSize.1 + (p.1 - c.viewportPos.1)

/-- Modelled from the spec: the part of an unpacked `GBufferEntry` the
resolving shader consults — whether the pixel's primary ray hit geometry. -/
structure GBufferEntry where
  isHit : Bool
deriving DecidableEq, Repr

/-- Modelled from the spec: a `Hit` built by `Hit::new` from the camera ray
and the unpacked g-buffer entry; it carries the ray's direction and is
"some" exactly when the g-buffer entry describes a geometric hit. -/
structure Hit where
  isSome : Bool
  direction : Vec3
deriving DecidableEq, Repr

/-- Modelled from the spec: `Hit::new(ray, gbuffer_entry)`. -/
def Hit.new (rayDirection : Vec3) (entry : GBufferEntry) : Hit :=
  ⟨entry.isHit, rayDirection⟩

/-- A direct-lighting sample as stored in a reservoir: the chosen light id. -/
structure DiSample where
  light_id : ℕ
deriving DecidableEq, Repr

/-- A direct-lighting reservoir as read back by the resolving shader: the
chosen sample, the running weight sum `w_sum`, the candidate count `m`, and
the resolved weight `w`. -/
structure DiReservoir where
  sample : DiSample
  w_sum : ℚ
  m : ℚ
  w : ℚ
deriving DecidableEq, Repr

/-- The environment the resolving shader reads: the scene's lights (as the
radiance-contribution function `Light::radiance` of the light looked up by
id — modelled from the spec), the world's sun direction, the atmosphere
lookup (`Atmosphere::sample` — modelled from the spec as an abstract pure
function of sun direction, ray direction and intensity), the packed primary
g-buffer, the camera ray directions, and the `next_reservoirs` buffer. -/
structure DiResolvingEnv where
  lightRadiance : ℕ → Hit → Vec3
  sunDirection : Vec3
  atmosphereSample : Vec3 → Vec3 → ℚ → Vec3
  primGbuffer : ℕ × ℕ → GBufferEntry
  cameraRayDirection : ℕ × ℕ → Vec3
  nextReservoirs : ℕ → DiReservoir

/-- The mutable outputs of the resolving shader: the output radiance texture
and the `prev_reservoirs` buffer. -/
structure DiResolvingState where
  output : ℕ × ℕ → Vec4
  prevReservoirs : ℕ → DiReservoir

/-- The body of `main` in `di_resolving.rs`, per thread: bail out for
positions outside the viewport; otherwise build the hit from the camera ray
and the g-buffer, read the reservoir chosen by the spatial pass from
`next_reservoirs`, shade (`light.radiance(hit) * res.w` on a geometric hit,
`atmosphere.sample(sun_direction, hit.direction, 1.0)` on sky), write the
color (extended by `0.0`) to the output texture, and store the reservoir
into `prev_reservoirs` at the pixel's index. -/
def diResolvingMain (camera : Camera) (env : DiResolvingEnv)
    (st : DiResolvingState) (global_id : ℕ × ℕ) : DiResolvingState :=
  let screen_pos := global_id
  let screen_idx := camera.screen_to_idx screen_pos
  if ¬ camera.contains screen_pos then
    st
  else
    let hit :=
      Hit.new (env.cameraRayDirection screen_pos) (env.primGbuffer screen_pos)
    let res := env.nextReservoirs (camera.screen_to_idx screen_pos)
    let color :=
      if hit.isSome then
        (env.lightRadiance res.sample.light_id hit).mulScalar res.w
      else
        env.atmosphereSample env.sunDirection hit.direction 1
    { output := fun p =>
        if p = screen_pos then color.extend 0 else st.output p
      prevReservoirs := fun i =>
        if i = screen_idx then res else st.prevReservoirs i }

/-- C3: for a pixel inside the viewport the resolving shader writes, as
output radiance, the chosen light sample's radiance contribution at the hit
scaled by the reservoir weight `w` when the primary hit is geometry, and the
atmosphere sampled along the view-ray direction when the pixel is sky. -/
theorem C3_resolving_output_radiance (camera : Camera)
    (env : DiResolvingEnv) (st : DiResolvingState) (p : ℕ × ℕ)
    (hin : camera.contains p) :
    (diResolvingMain camera env st p).output p =
      (if (env.primGbuffer p).isHit then
          ((env.lightRadiance
              (env.nextReservoirs (camera.screen_to_idx p)).sample.light_id
              (Hit.new (env.cameraRayDirection p) (env.primGbuffer p))).mulScalar
            (env.nextReservoirs (camera.screen_to_idx p)).w).extend 0
        else
          (env.atmosphereSample env.sunDirection
            (env.cameraRayDirection p) 1).extend 0) := by
  simp only [diResolvingMain, hin, not_true_eq_false, if_false, if_true,
    Hit.new]
  split <;> simp_all [Hit.new]

/-- Witness for `C3_resolving_output_radiance`: a 2×2 viewport at the
origin, a sky pixel `(0, 0)`, constant environment functions. -/
theorem C3_resolving_output_radiance_witness :
    (Camera.mk (0, 0) (2, 2)).contains (0, 0) ∧
    (diResolvingMain (Camera.mk (0, 0) (2, 2))
        (DiResolvingEnv.mk (fun _ _ => ⟨1, 1, 1⟩) ⟨0, 1, 0⟩
          (fun _ _ _ => ⟨2, 3, 4⟩) (fun _ => ⟨false⟩) (fun _ => ⟨0, 0, 1⟩)
          (fun _ => ⟨⟨0⟩, 0, 0, 0⟩))
        (DiResolvingState.mk (fun _ => ⟨0, 0, 0, 0⟩) (fun _ => ⟨⟨0⟩, 0, 0, 0⟩))
        (0, 0)).output (0, 0) =
      (if (GBufferEntry.mk false).isHit then
          ((Vec3.mk 1 1 1).mulScalar 0).extend 0
        else
          (Vec3.mk 2 3 4).extend 0) :=
  ⟨by decide,
    C3_resolving_output_radiance (Camera.mk (0, 0) (2, 2))
      (DiResolvingEnv.mk (fun _ _ => ⟨1, 1, 1⟩) ⟨0, 1, 0⟩
        (fun _ _ _ => ⟨2, 3, 4⟩) (fun _ => ⟨false⟩) (fun _ => ⟨0, 0, 1⟩)
        (fun _ => ⟨⟨0⟩, 0, 0, 0⟩))
      (DiResolvingState.mk (fun _ => ⟨0, 0, 0, 0⟩) (fun _ => ⟨⟨0⟩, 0, 0, 0⟩))
      (0, 0) (by decide)⟩

/-- C9: for a screen position outside the camera viewport the resolving
shader returns before writing anything — the output texture and the
previous-reservoir buffer are both left exactly as they were. -/
theorem C9_resolving_out_of_viewport_no_write (camera : Camera)
    (env : DiResolvingEnv) (st : DiResolvingState) (p : ℕ × ℕ)
    (hout : ¬ camera.contains p) :
    diResolvingMain camera env st p = st := by
  simp [diResolvingMain, hout]

/-- Witness for `C9_resolving_out_of_viewport_no_write`: position `(5, 0)`
lies outside a 2×2 viewport at the origin. -/
theorem C9_resolving_out_of_viewport_no_write_witness :
    ¬ (Camera.mk (0, 0) (2, 2)).contains (5, 0) ∧
    diResolvingMain (Camera.mk (0, 0) (2, 2))
        (DiResolvingEnv.mk (fun _ _ => ⟨1, 1, 1⟩) ⟨0, 1, 0⟩
          (fun _ _ _ => ⟨2, 3, 4⟩) (fun _ => ⟨false⟩) (fun _ => ⟨0, 0, 1⟩)
          (fun _ => ⟨⟨0⟩, 0, 0, 0⟩))
        (DiResolvingState.mk (fun _ => ⟨0, 0, 0, 0⟩) (fun _ => ⟨⟨0⟩, 0, 0, 0⟩))
        (5, 0) =
      DiResolvingState.mk (fun _ => ⟨0, 0, 0, 0⟩) (fun _ => ⟨⟨0⟩, 0, 0, 0⟩) :=
  ⟨by decide,
    C9_resolving_out_of_viewport_no_write (Camera.mk (0, 0) (2, 2))
      (DiResolvingEnv.mk (fun _ _ => ⟨1, 1, 1⟩) ⟨0, 1, 0⟩
        (fun _ _ _ => ⟨2, 3, 4⟩) (fun _ => ⟨false⟩) (fun _ => ⟨0, 0, 1⟩)
        (fun _ => ⟨⟨0⟩, 0, 0, 0⟩))
      (DiResolvingState.mk (fun _ => ⟨0, 0, 0, 0⟩) (fun _ => ⟨⟨0⟩, 0, 0, 0⟩))
      (5, 0) (by decide)⟩

/-! ## The drawing pass (`src/strolle/src/camera_controller/passes/drawing.rs`) -/

/-- A GPU resource a pass can write: one of the internal buffers, or the
externally supplied target texture view (the `view` argument of
`DrawingPass::run`). -/
inductive Resource
  | buffer (b : BufferId)
  | externalTargetView
deriving DecidableEq, Repr

/-- The resources a compute pass writes: the writable entries of its binding
list. -/
def computeWrites (bs : List (BufferId × Access)) : List Resource :=
  bs.filterMap fun ba =>
    if ba.2 = Access.writable then some (Resource.buffer ba.1) else none

/-- wgpu's `LoadOp` for a color attachment. -/
inductive LoadOp
  | load
  | clear
deriving DecidableEq, Repr

/-- `gpu::DrawingPassParams`: the per-draw parameter block pushed to the
fragment stage. -/
structure DrawingPassParams where
  viewport_mode : ℕ
deriving DecidableEq, Repr

/-- Modelled from the spec: the camera's view mode together with its
serialized form (`CameraMode::serialize`), as consumed by the drawing
pass's parameter block. -/
structure CameraMode where
  serialized : ℕ
deriving DecidableEq, Repr

/-- Modelled from the spec: `CameraMode::serialize`. -/
def CameraMode.serialize (m : CameraMode) : ℕ :=
  m.serialized

/-- The camera data `DrawingPass::run` reads: the viewport rectangle and the
view mode. -/
structure RenderCamera where
  viewport : Camera
  mode : CameraMode

/-- The render pass recorded by `DrawingPass::run`, translated field by
field from the source: a single color attachment on the externally supplied
view with `LoadOp::Load` and `store: true`, a scissor rectangle set from the
camera viewport's position and size, and `DrawingPassParams` holding the
serialized camera mode as the fragment push constants. -/
structure DrawingRunDesc where
  attachmentTarget : Resource
  loadOp : LoadOp
  store : Bool
  scissor : Camera
  pushConstants : DrawingPassParams

/-- `DrawingPass::run` for a camera, as a `DrawingRunDesc`. -/
def drawingRun (camera : RenderCamera) : DrawingRunDesc :=
  { attachmentTarget := .externalTargetView
    loadOp := .load
    store := true
    scissor := camera.viewport
    pushConstants := ⟨camera.mode.serialize⟩ }

/-- The effect of a recorded drawing run on the target image: pixels inside
the scissor rectangle take the fragment shader's output; pixels outside it
are untouched by the draw and hold the attachment's initial content — the
previous target content under `LoadOp::Load`, black under `LoadOp::Clear`. -/
def applyDrawingRun (d : DrawingRunDesc) (frag target : ℕ × ℕ → Vec4) :
    ℕ × ℕ → Vec4 :=
  fun p =>
    if d.scissor.contains p then
      frag p
    else
      match d.loadOp with
      | .load => target p
      | .clear => ⟨0, 0, 0, 0⟩

/-- C8: the drawing pass is the only pass whose recorded commands write the
externally supplied target view (every compute pass writes only internal
buffers); its scissor rectangle is exactly the camera viewport with
`LoadOp::Load`, so a target pixel outside the viewport keeps its previous
content; and its per-draw parameter block is the camera's serialized view
mode. -/
theorem C8_drawing_pass_target_and_scissor (camera : RenderCamera)
    (frag target : ℕ × ℕ → Vec4) (p : ℕ × ℕ)
    (hout : ¬ camera.viewport.contains p) :
    (drawingRun camera).attachmentTarget = .externalTargetView ∧
    (Resource.externalTargetView ∉ computeWrites temporalResamplingBindings ∧
      Resource.externalTargetView ∉ computeWrites spatialResamplingBindings ∧
      Resource.externalTargetView ∉ computeWrites resolvingBindings ∧
      Resource.externalTargetView ∉ computeWrites refTracingBindings) ∧
    (drawingRun camera).scissor = camera.viewport ∧
    (drawingRun camera).loadOp = .load ∧
    applyDrawingRun (drawingRun camera) frag target p = target p ∧
    (drawingRun camera).pushConstants = ⟨camera.mode.serialize⟩ := by
  refine ⟨rfl, by decide, rfl, rfl, ?_, rfl⟩
  simp [applyDrawingRun, drawingRun, hout]

/-- Witness for `C8_drawing_pass_target_and_scissor`: a 2×2 viewport at the
origin with serialized mode `7`, evaluated at the outside pixel `(5, 0)`. -/
theorem C8_drawing_pass_target_and_scissor_witness :
    ¬ (Camera.mk (0, 0) (2, 2)).contains (5, 0) ∧
    ((drawingRun ⟨Camera.mk (0, 0) (2, 2), ⟨7⟩⟩).attachmentTarget =
        .externalTargetView ∧
      (Resource.externalTargetView ∉ computeWrites temporalResamplingBindings ∧
        Resource.externalTargetView ∉ computeWrites spatialResamplingBindings ∧
        Resource.externalTargetView ∉ computeWrites resolvingBindings ∧
        Resource.externalTargetView ∉ computeWrites refTracingBindings) ∧
      (drawingRun ⟨Camera.mk (0, 0) (2, 2), ⟨7⟩⟩).scissor =
        Camera.mk (0, 0) (2, 2) ∧
      (drawingRun ⟨Camera.mk (0, 0) (2, 2), ⟨7⟩⟩).loadOp = .load ∧
      applyDrawingRun (drawingRun ⟨Camera.mk (0, 0) (2, 2), ⟨7⟩⟩)
          (fun _ => ⟨1, 1, 1, 1⟩) (fun _ => ⟨0, 0, 0, 0⟩) (5, 0) =
        (fun _ : ℕ × ℕ => Vec4.mk 0 0 0 0) (5, 0) ∧
      (drawingRun ⟨Camera.mk (0, 0) (2, 2), ⟨7⟩⟩).pushConstants =
        ⟨CameraMode.serialize ⟨7⟩⟩) :=
  ⟨by decide,
    C8_drawing_pass_target_and_scissor ⟨Camera.mk (0, 0) (2, 2), ⟨7⟩⟩
      (fun _ => ⟨1, 1, 1, 1⟩) (fun _ => ⟨0, 0, 0, 0⟩) (5, 0) (by decide)⟩

end Strolle
